import Mathlib

/-!
# Verification of `monitoring.py` (aws-monitoring)

A shallow embedding of the monitoring script's core logic.  External
backends (CloudWatch, SSM, Elastic Beanstalk listing, HTTP probe,
Selenium scrape, EC2 name lookup) are modelled as explicit inputs:
a call that can raise is an `Except String` value, a repeatable poll is
a function from the query index to its result.  Python exceptions are
modelled with `Except` / an explicit `exn` outcome; `try/except` blocks
in the source become `match`es that convert errors to the source's
fallback value.  Numeric (Python float) values are modelled as `ℚ`.
-/

/-! ## Python string primitives used by the script -/

/-- Model of Python `str.strip()`: drop leading and trailing whitespace. -/
def pyStrip (s : String) : String :=
  String.mk (((s.toList.dropWhile Char.isWhitespace).reverse.dropWhile
      Char.isWhitespace).reverse)

/-- Group the non-whitespace runs of a character list (helper for `pySplit`). -/
def splitGroups (cs : List Char) : List (List Char) :=
  cs.foldr
    (fun c acc =>
      if c.isWhitespace then [] :: acc
      else
        match acc with
        | [] => [[c]]
        | t :: ts => (c :: t) :: ts)
    []

/-- Model of Python `str.split()` with no arguments: split on whitespace
runs, discarding empty tokens. -/
def pySplit (s : String) : List String :=
  ((splitGroups s.toList).filter (fun t => !t.isEmpty)).map String.mk

/-- Model of Python `str.replace("%", "")`: remove every `%` character. -/
def pyReplacePct (s : String) : String :=
  String.mk (s.toList.filter (fun c => c != '%'))

/-- Model of Python `str.isdigit()`: non-empty and all digits. -/
def pyIsDigit (s : String) : Bool :=
  !s.toList.isEmpty && s.toList.all Char.isDigit

/-- Decimal value of a digit run (most significant first). -/
def digitsToNat (ds : List Char) : ℕ :=
  ds.foldl (fun n c => 10 * n + (c.toNat - 48)) 0

/-- Model of Python `float(s)` on the decimal forms the script can meet:
optional surrounding whitespace, optional sign, digits with an optional
single decimal point (at least one digit overall).  Returns `none` where
Python `float` raises `ValueError`.  (Exponent notation, `inf`/`nan` and
digit-group underscores are not modelled; the script never produces them.) -/
def pyFloat (s : String) : Option ℚ :=
  let cs := (pyStrip s).toList
  let signBody : ℤ × List Char :=
    match cs with
    | '+' :: rest => (1, rest)
    | '-' :: rest => (-1, rest)
    | _ => (1, cs)
  let sign := signBody.1
  let body := signBody.2
  let intPart := body.takeWhile Char.isDigit
  let rest := body.dropWhile Char.isDigit
  match rest with
  | [] =>
    if intPart.isEmpty then none
    else some ((sign : ℚ) * (digitsToNat intPart : ℚ))
  | '.' :: frac =>
    if frac.all Char.isDigit && (!intPart.isEmpty || !frac.isEmpty) then
      some ((sign : ℚ) *
        ((digitsToNat intPart : ℚ) + (digitsToNat frac : ℚ) / (10 : ℚ) ^ frac.length))
    else none
  | _ => none

/-- Fixed-two-decimal rendering of a rational, modelling the `:.2f`
format used in narrative/status strings (rounding to nearest). -/
def fmt2 (q : ℚ) : String :=
  let n : ℤ := round (q * 100)
  let sign := if n < 0 then "-" else ""
  let m := n.natAbs
  sign ++ toString (m / 100) ++ "." ++
    (if m % 100 < 10 then "0" else "") ++ toString (m % 100)

/-! ## Data model -/

/-- One normalized issue record, as appended to the global `issues` list. -/
structure Issue where
  «Type» : String
  Name : String
  Metric : String
  Status : String
deriving DecidableEq, Repr

/-- One result entry of a CloudWatch `get_metric_data` response
(`MetricDataResults[i]`), keeping the field the script reads. -/
structure MetricDataResult where
  Values : List ℚ
deriving DecidableEq, Repr

/-- One SSM `get_command_invocation` response, keeping the fields the
script reads. -/
structure Invocation where
  Status : String
  StandardOutputContent : String
deriving DecidableEq, Repr

/-- One Elastic Beanstalk environment record from `describe_environments`. -/
structure EnvInfo where
  EnvironmentName : String
  Status : String
  Health : String
deriving DecidableEq, Repr

/-- An HTTP response as seen by `check_fota_time_api`. -/
structure HttpResponse where
  status_code : ℕ
  text : String
deriving DecidableEq, Repr

/-! ## `check_ec2_cpu` (MetricProbe) -/

/-- Result of one `check_ec2_cpu` call, together with the number of
`get_metric_data` backend queries it issued. -/
structure CpuRun where
  result : Option ℚ
  queries : ℕ
deriving DecidableEq, Repr

/-- Embedding of `check_ec2_cpu`.  `backend n` is the result of the
`n`-th `cw.get_metric_data` call (an exception or a `MetricDataResults`
list); the function issues exactly one query (`backend 0`), has no loop
and no retry.  The whole body is inside `try/except`, so a backend
exception is logged and converted to `None`; zero results or zero
datapoints also give `None`; otherwise the value is Python
`max(results[0]["Values"])`, i.e. the fold of `max` over the series. -/
def check_ec2_cpu (backend : ℕ → Except String (List MetricDataResult)) : CpuRun :=
  match backend 0 with
  | .error _ => ⟨none, 1⟩
  | .ok results =>
    match results with
    | [] => ⟨none, 1⟩
    | r :: _ =>
      match r.Values with
      | [] => ⟨none, 1⟩
      | v :: vs => ⟨some (vs.foldl max v), 1⟩

/-! ## `check_storage` (RemoteCommandPoller) -/

/-- How the `try` body of `check_storage` ends: a normal `return`
carrying the parsed triple or `None`, or a raised exception (the
`float()` conversion) that the surrounding `except` will catch. -/
inductive StorageOutcome
  | ret (r : Option (ℚ × String × String))
  | exn (msg : String)
deriving DecidableEq, Repr

/-- Trace of one `check_storage` execution: how the body ended, how many
`get_command_invocation` status queries were issued, and the sequence of
`time.sleep` durations (seconds) in order. -/
structure StorageRun where
  outcome : StorageOutcome
  queries : ℕ
  sleeps : List ℕ
deriving DecidableEq, Repr

/-- Embedding of the `for _ in range(10)` polling loop of
`check_storage`.  `poll q` is the `q`-th `get_command_invocation`
response; `fuel` is the number of loop iterations left, `q` the queries
issued so far, `sl` the sleeps so far.  Mirrors the source exactly:
`Pending`/`InProgress` sleeps 3 s and continues; `Success` parses stdout
(strip, split, expect 3 tokens, strip `%`, `float(...)` which may raise)
and either returns the triple, or `break`s to the trailing
`return None`; any other status matches neither `if` and the loop
continues — with no sleep; an exhausted loop falls through to
`return None`. -/
def checkStorageLoop (poll : ℕ → Invocation) : ℕ → ℕ → List ℕ → StorageRun
  | 0, q, sl => ⟨.ret none, q, sl⟩
  | fuel + 1, q, sl =>
    let output := poll q
    if output.Status = "InProgress" ∨ output.Status = "Pending" then
      checkStorageLoop poll fuel (q + 1) (sl ++ [3])
    else if output.Status = "Success" then
      let result := pyStrip output.StandardOutputContent
      if result ≠ "" then
        let parts := pySplit result
        if parts.length = 3 then
          let percent := pyReplacePct (parts.getD 0 "")
          let used := parts.getD 1 ""
          let total := parts.getD 2 ""
          match pyFloat percent with
          | some p => ⟨.ret (some (p, used, total)), q + 1, sl⟩
          | none => ⟨.exn "ValueError", q + 1, sl⟩
        else ⟨.ret none, q + 1, sl⟩
      else ⟨.ret none, q + 1, sl⟩
    else
      checkStorageLoop poll fuel (q + 1) sl

/-- Full trace of the `try` body of `check_storage` after a successful
dispatch: `time.sleep(2)` once, then up to 10 polls. -/
def checkStorageRun (poll : ℕ → Invocation) : StorageRun :=
  checkStorageLoop poll 10 0 [2]

/-- Embedding of `check_storage` as its caller sees it.  `dispatch` is
the `ssm.send_command` call (an exception aborts the `try` body);
`poll` as in `checkStorageLoop`.  The surrounding `except Exception`
converts any raised exception — from dispatch or from `float()` — into
a logged `None`. -/
def check_storage (dispatch : Except String Unit) (poll : ℕ → Invocation) :
    Option (ℚ × String × String) :=
  match dispatch with
  | .error _ => none
  | .ok _ =>
    match (checkStorageRun poll).outcome with
    | .ret r => r
    | .exn _ => none

/-! ## `get_instance_name`, instance lists -/

/-- The `logger_mongo_instances` list from the source. -/
def logger_mongo_instances : List String :=
  ["i-00e0f35f25480f647", "i-0c88e356ad88357b0", "i-070ed38555e983a39"]

/-- The `main_mongo_instances` list from the source. -/
def main_mongo_instances : List String :=
  ["i-0fd0bddfa1f458b4b", "i-0b3819ce528f9cd9f", "i-051daf3ab8bc94e62"]

/-! ## External world

All backend behaviour the script consumes during one run.
`get_instance_name` catches every exception internally and always
returns a string (the `Name` tag or, failing that, the id itself), so it
is modelled directly as the total function `instanceName`. -/

/-- The external collaborators of one run. -/
structure World where
  /-- `eb.describe_environments()["Environments"]`: the listing call,
  which may raise. -/
  ebDescribe : Except String (List EnvInfo)
  /-- Resolved display name per instance id (the total result of
  `get_instance_name`, which never raises). -/
  instanceName : String → String
  /-- Per instance id, the `n`-th `cw.get_metric_data` response. -/
  cpuBackend : String → ℕ → Except String (List MetricDataResult)
  /-- Per instance id and path, the `ssm.send_command` dispatch. -/
  storageDispatch : String → String → Except String Unit
  /-- Per instance id and path, the `q`-th `get_command_invocation`
  response. -/
  storagePoll : String → String → ℕ → Invocation
  /-- The `requests.get("https://fota.kazam.in/time")` call. -/
  fotaResp : Except String HttpResponse
  /-- The Selenium scrape: an exception, or the cell texts of each table
  row. -/
  mqttScrape : Except String (List (List String))

/-! ## `monitor_beanstalk` -/

/-- The per-environment loop body of `monitor_beanstalk`: skip the two
suspended environments by exact name, count `Green` as healthy,
otherwise append an issue. -/
def monitorBeanstalkIssues (envs : List EnvInfo) : List Issue :=
  envs.filterMap fun env =>
    if env.EnvironmentName = "kazam-app-backend-env" ∨
        env.EnvironmentName = "Kazam-platform-replica-env" then none
    else if env.Health = "Green" then none
    else some ⟨"Elastic Beanstalk", env.EnvironmentName, "Health", env.Health⟩

/-- Embedding of `monitor_beanstalk`.  The `eb.describe_environments()`
call is NOT inside any `try` in the source, so its exception propagates
out of the function (the `.error` branch). -/
def monitor_beanstalk (listing : Except String (List EnvInfo)) :
    Except String (List Issue) :=
  match listing with
  | .error e => .error e
  | .ok envs => .ok (monitorBeanstalkIssues envs)

/-! ## `monitor_ec2` -/

/-- The storage probe for one instance and path, as `check_instances`
invokes it. -/
def storageOf (w : World) (inst path : String) : Option (ℚ × String × String) :=
  check_storage (w.storageDispatch inst path) (w.storagePoll inst path)

/-- One iteration of the `check_instances` loop inside `monitor_ec2`:
resolve the name, probe CPU (issue on missing data or value above 65),
probe storage (issue on failure or percent above 84).  Returns the
issues this iteration appends, in order. -/
def checkOneInstance (w : World) (inst_type storage_path inst : String) :
    List Issue :=
  let name := w.instanceName inst
  let cpu := (check_ec2_cpu (w.cpuBackend inst)).result
  let cpuIssues : List Issue :=
    match cpu with
    | none => [⟨inst_type, name, "CPU", "No data"⟩]
    | some c =>
      if c > 65 then [⟨inst_type, name, "CPU", "High (" ++ fmt2 c ++ "%)"⟩]
      else []
  let storage := storageOf w inst storage_path
  let storageIssues : List Issue :=
    match storage with
    | some (percent, used, total) =>
      if percent > 84 then
        [⟨inst_type, name, "Storage",
          "High (" ++ fmt2 percent ++ "% used " ++ used ++ "/" ++ total ++ ")"⟩]
      else []
    | none => [⟨inst_type, name, "Storage", "Check failed"⟩]
  cpuIssues ++ storageIssues

/-- The `check_instances` inner function of `monitor_ec2`: the issues
appended over a list of instances, in loop order. -/
def check_instances (w : World) (instances : List String)
    (inst_type storage_path : String) : List Issue :=
  instances.flatMap (checkOneInstance w inst_type storage_path)

/-- Embedding of `monitor_ec2`: logger instances are checked against the
root path `/`, main instances against `/data`.  Every call it makes
(`check_ec2_cpu`, `check_storage`, `get_instance_name`) catches its own
exceptions, so `monitor_ec2` itself never raises. -/
def monitor_ec2 (w : World) : List Issue :=
  check_instances w logger_mongo_instances "EC2 Logger" "/" ++
    check_instances w main_mongo_instances "EC2 Main Mongo" "/data"

/-! ## `check_fota_time_api` -/

/-- Embedding of `check_fota_time_api`.  The whole body is inside
`try/except`: an exception from the HTTP call becomes an
`Exception`-metric issue; a response that is not (status 200 and a
digits-only body) becomes the fixed `Response`/`Invalid data` issue. -/
def check_fota_time_api (resp : Except String HttpResponse) : List Issue :=
  match resp with
  | .error e => [⟨"FOTA API", "fota.kazam.in/time", "Exception", e⟩]
  | .ok r =>
    if (r.status_code == 200) && pyIsDigit (pyStrip r.text) then []
    else [⟨"FOTA API", "fota.kazam.in/time", "Response", "Invalid data"⟩]

/-! ## `monitor_mqtt_nodes` -/

/-- Embedding of `monitor_mqtt_nodes`.  The whole body is inside
`try/except`: a scrape exception becomes one `Connection`/`Failed:`
issue.  Otherwise every row with at least 7 cells contributes its
`(name, memory, cpu_load)` cells to `table_data`, and ONE ISSUE IS
APPENDED PER ROW UNCONDITIONALLY — no health evaluation happens. -/
def monitor_mqtt_nodes (scrape : Except String (List (List String))) :
    List Issue :=
  match scrape with
  | .error e => [⟨"MQTT Node", "All", "Connection", "Failed: " ++ e⟩]
  | .ok rows =>
    let table_data := rows.filterMap fun cols =>
      if 7 ≤ cols.length then some (cols.getD 0 "", cols.getD 5 "", cols.getD 6 "")
      else none
    table_data.map fun nmc =>
      ⟨"MQTT Node", nmc.1, "Memory/CPU",
        "Memory: " ++ nmc.2.1 ++ ", CPU: " ++ nmc.2.2⟩

/-! ## `print_issue_summary` and the orchestrator -/

/-- The filtering step of `print_issue_summary`: drop every issue whose
`Type` is `"MQTT Node"`, keep everything else in order. -/
def filtered_issues (issues : List Issue) : List Issue :=
  issues.filter fun i => i.«Type» != "MQTT Node"

/-- Observable outcome of one `__main__` run. -/
structure RunOutcome where
  /-- `monitor_ec2` was reached and ran. -/
  ranEc2 : Bool
  /-- `check_fota_time_api` was reached and ran. -/
  ranFota : Bool
  /-- `monitor_mqtt_nodes` was reached and ran. -/
  ranMqtt : Bool
  /-- Contents of the global `issues` list at the end of the run. -/
  issues : List Issue
  /-- The issue list rendered by `print_issue_summary` (`none` if the
  run aborted before rendering). -/
  summary : Option (List Issue)
  /-- `send_email` was reached with the captured report. -/
  emailSent : Bool
  /-- An exception that escaped the monitors and aborted the run. -/
  uncaught : Option String

/-- Embedding of the `__main__` block: `monitor_beanstalk`,
`monitor_ec2`, `check_fota_time_api`, `monitor_mqtt_nodes`,
`print_issue_summary`, then `send_email`.  Only `monitor_beanstalk` can
raise (its listing call has no `try`); when it does, nothing after it
runs and no email is sent. -/
def mainRun (w : World) : RunOutcome :=
  match monitor_beanstalk w.ebDescribe with
  | .error e =>
    { ranEc2 := false, ranFota := false, ranMqtt := false, issues := [],
      summary := none, emailSent := false, uncaught := some e }
  | .ok ebIssues =>
    let allIssues := ebIssues ++ monitor_ec2 w ++
      check_fota_time_api w.fotaResp ++ monitor_mqtt_nodes w.mqttScrape
    { ranEc2 := true, ranFota := true, ranMqtt := true, issues := allIssues,
      summary := some (filtered_issues allIssues), emailSent := true,
      uncaught := none }

/-! ## Concrete worlds used as witnesses -/

/-- A world where every backend behaves: one green environment, low CPU,
half-full storage, a valid time response, an empty node table. -/
def healthyWorld : World where
  ebDescribe := .ok [⟨"prod-env", "Ready", "Green"⟩]
  instanceName := fun id => id
  cpuBackend := fun _ _ => .ok [⟨[10]⟩]
  storageDispatch := fun _ _ => .ok ()
  storagePoll := fun _ _ _ => ⟨"Success", "50% 10G 20G"⟩
  fotaResp := .ok ⟨200, "1712345678"⟩
  mqttScrape := .ok []

/-- `healthyWorld`, except the environment-listing call raises. -/
def badBeanstalkWorld : World :=
  { healthyWorld with ebDescribe := .error "ConnectionError" }

/-- Poll function that always reports `Pending`. -/
def pollPending : ℕ → Invocation := fun _ => ⟨"Pending", ""⟩

/-- Poll function that always reports the terminal status `Failed`. -/
def pollFailed : ℕ → Invocation := fun _ => ⟨"Failed", ""⟩

/-- Poll function whose command succeeds at once but with a stdout whose
first token is not a parseable number. -/
def pollBadToken : ℕ → Invocation := fun _ => ⟨"Success", "abc% 45G 50G"⟩

/-- A world whose probes return values exactly at the thresholds:
CPU 65, storage 84 %. -/
def thresholdWorld : World :=
  { healthyWorld with
    cpuBackend := fun _ _ => .ok [⟨[65]⟩]
    storagePoll := fun _ _ _ => ⟨"Success", "84% 45G 50G"⟩ }

/-- A small issue list mixing an MQTT-node record with another type. -/
def sampleIssues : List Issue :=
  [⟨"MQTT Node", "node1", "Memory/CPU", "Memory: 512MB, CPU: 0.05"⟩,
   ⟨"EC2 Logger", "logger-1", "CPU", "No data"⟩]

/-- A metrics backend that always raises. -/
def cpuErrBackend : ℕ → Except String (List MetricDataResult) :=
  fun _ => .error "Throttling"

/-- A metrics backend returning the two-point series `[0, 100]`. -/
def cpuSeriesBackend : ℕ → Except String (List MetricDataResult) :=
  fun _ => .ok [⟨[0, 100]⟩]

/-- The arithmetic mean of a series — what a true "average of the
returned series" would compute (for contrast with the source's `max`). -/
def seriesMean (l : List ℚ) : ℚ := l.sum / l.length

/-! ## Lemmas about the polling loop -/

lemma checkStorageLoop_pending_all (poll : ℕ → Invocation) :
    ∀ fuel q sl,
      (∀ n, n < fuel →
        (poll (q + n)).Status = "InProgress" ∨ (poll (q + n)).Status = "Pending") →
      checkStorageLoop poll fuel q sl =
        ⟨.ret none, q + fuel, sl ++ List.replicate fuel 3⟩ := by
  intro fuel
  induction fuel with
  | zero => intro q sl _; simp [checkStorageLoop]
  | succ fuel ih =>
    intro q sl h
    have h0 := h 0 (Nat.succ_pos fuel)
    rw [Nat.add_zero] at h0
    have hrec := ih (q + 1) (sl ++ [3]) (fun n hn => by
      have := h (n + 1) (by omega)
      rwa [show q + (n + 1) = q + 1 + n by omega] at this)
    simp only [checkStorageLoop, if_pos h0, hrec]
    rw [show q + 1 + fuel = q + (fuel + 1) by omega,
      show List.replicate (fuel + 1) (3 : ℕ) = 3 :: List.replicate fuel 3 from rfl]
    simp

lemma checkStorageLoop_other_all (poll : ℕ → Invocation) :
    ∀ fuel q sl,
      (∀ n, n < fuel →
        (poll (q + n)).Status ≠ "InProgress" ∧ (poll (q + n)).Status ≠ "Pending" ∧
          (poll (q + n)).Status ≠ "Success") →
      checkStorageLoop poll fuel q sl = ⟨.ret none, q + fuel, sl⟩ := by
  intro fuel
  induction fuel with
  | zero => intro q sl _; simp [checkStorageLoop]
  | succ fuel ih =>
    intro q sl h
    have h0 := h 0 (Nat.succ_pos fuel)
    rw [Nat.add_zero] at h0
    have hrec := ih (q + 1) sl (fun n hn => by
      have := h (n + 1) (by omega)
      rwa [show q + (n + 1) = q + 1 + n by omega] at this)
    have hcond : ¬((poll q).Status = "InProgress" ∨ (poll q).Status = "Pending") := by
      rintro (h1 | h2)
      · exact h0.1 h1
      · exact h0.2.1 h2
    simp only [checkStorageLoop]
    rw [if_neg hcond, if_neg h0.2.2, hrec,
      show q + 1 + fuel = q + (fuel + 1) by omega]

lemma checkStorageLoop_queries_le (poll : ℕ → Invocation) :
    ∀ fuel q sl, (checkStorageLoop poll fuel q sl).queries ≤ q + fuel := by
  intro fuel
  induction fuel with
  | zero => intro q sl; simp [checkStorageLoop]
  | succ fuel ih =>
    intro q sl
    simp only [checkStorageLoop]
    split
    · exact (ih (q + 1) (sl ++ [3])).trans (by omega)
    · split
      · repeat' split
        all_goals simp
      · exact (ih (q + 1) sl).trans (by omega)

/-! ## Lemmas about `max` folds -/

lemma foldl_max_mem (vs : List ℚ) : ∀ v : ℚ, vs.foldl max v ∈ v :: vs := by
  induction vs with
  | nil => intro v; simp
  | cons a t ih =>
    intro v
    simp only [List.foldl_cons]
    rcases List.mem_cons.1 (ih (max v a)) with h | h
    · rcases max_choice v a with hm | hm
      · rw [h, hm]; exact List.mem_cons_self _ _
      · rw [h, hm]; exact List.mem_cons_of_mem _ (List.mem_cons_self _ _)
    · exact List.mem_cons_of_mem _ (List.mem_cons_of_mem _ h)

lemma le_foldl_max_init (vs : List ℚ) : ∀ v : ℚ, v ≤ vs.foldl max v := by
  induction vs with
  | nil => intro v; simp
  | cons a t ih =>
    intro v
    simp only [List.foldl_cons]
    exact le_trans (le_max_left v a) (ih (max v a))

lemma le_foldl_max_of_mem (vs : List ℚ) :
    ∀ v x : ℚ, x ∈ v :: vs → x ≤ vs.foldl max v := by
  induction vs with
  | nil =>
    intro v x hx
    simp only [List.foldl_nil]
    rcases List.mem_cons.1 hx with rfl | hx
    · exact le_refl x
    · simp at hx
  | cons a t ih =>
    intro v x hx
    simp only [List.foldl_cons]
    rcases List.mem_cons.1 hx with rfl | hx
    · exact le_trans (le_max_left x a) (le_foldl_max_init t (max x a))
    · rcases List.mem_cons.1 hx with rfl | hx
      · exact le_trans (le_max_right v x) (le_foldl_max_init t (max v x))
      · exact ih (max v a) x (List.mem_cons_of_mem _ hx)

/-! ## Claim theorems -/

/-- Claim C3: when every status query reports `Pending` or `InProgress`,
`check_storage` returns `None` after exactly 10 status queries, each
pending query consuming one attempt followed by a 3-second sleep, after
a single initial 2-second wait; and for no poll behaviour whatsoever are
more than 10 queries issued. -/
theorem c3_pending_exhausts_attempts (poll : ℕ → Invocation)
    (h : ∀ n, n < 10 →
      (poll n).Status = "InProgress" ∨ (poll n).Status = "Pending") :
    checkStorageRun poll = ⟨.ret none, 10, 2 :: List.replicate 10 3⟩ ∧
    check_storage (.ok ()) poll = none ∧
    ∀ poll' : ℕ → Invocation, (checkStorageRun poll').queries ≤ 10 := by
  have hrun : checkStorageRun poll = ⟨.ret none, 10, 2 :: List.replicate 10 3⟩ := by
    have hl := checkStorageLoop_pending_all poll 10 0 [2] (by simpa using h)
    simpa [checkStorageRun] using hl
  refine ⟨hrun, by simp [check_storage, hrun], fun poll' => ?_⟩
  simpa [checkStorageRun] using checkStorageLoop_queries_le poll' 10 0 [2]

/-- Witness for C3: the always-`Pending` poll function. -/
theorem c3_pending_exhausts_attempts_witness :
    checkStorageRun pollPending = ⟨.ret none, 10, 2 :: List.replicate 10 3⟩ ∧
    check_storage (.ok ()) pollPending = none :=
  ⟨(c3_pending_exhausts_attempts pollPending (by decide)).1,
   (c3_pending_exhausts_attempts pollPending (by decide)).2.1⟩

/-- C2 counterexample: when the very first status query reports the
terminal status `Failed`, polling does NOT stop — the function keeps
querying until all 10 attempts are spent (it returns `None` only then),
contradicting "returns `None` without issuing any further status
queries". -/
theorem c2_failed_keeps_polling_counterexample :
    (checkStorageRun pollFailed).queries = 10 ∧
    ¬((checkStorageRun pollFailed).queries = 1) ∧
    (checkStorageRun pollFailed).outcome = .ret none ∧
    check_storage (.ok ()) pollFailed = none := by decide

/-- Claim C2 (amended): a status other than `Success`, `Pending` and
`InProgress` does not stop the polling loop; the loop immediately issues
the next status query (without sleeping), and when every query reports
such a status the function returns `None` only after all 10 attempts,
having slept only the initial 2 seconds. -/
theorem c2_terminal_status_amended (poll : ℕ → Invocation)
    (h : ∀ n, n < 10 →
      (poll n).Status ≠ "InProgress" ∧ (poll n).Status ≠ "Pending" ∧
        (poll n).Status ≠ "Success") :
    checkStorageRun poll = ⟨.ret none, 10, [2]⟩ ∧
    check_storage (.ok ()) poll = none := by
  have hrun : checkStorageRun poll = ⟨.ret none, 10, [2]⟩ := by
    have hl := checkStorageLoop_other_all poll 10 0 [2] (by simpa using h)
    simpa [checkStorageRun] using hl
  exact ⟨hrun, by simp [check_storage, hrun]⟩

/-- Witness for the amended C2: the always-`Failed` poll function. -/
theorem c2_terminal_status_amended_witness :
    checkStorageRun pollFailed = ⟨.ret none, 10, [2]⟩ ∧
    check_storage (.ok ()) pollFailed = none :=
  c2_terminal_status_amended pollFailed (by decide)

lemma checkStorageLoop_success_exn (poll : ℕ → Invocation) (a b c : String)
    (fuel q : ℕ) (sl : List ℕ)
    (hst : (poll q).Status = "Success")
    (hne : pyStrip (poll q).StandardOutputContent ≠ "")
    (hsp : pySplit (pyStrip (poll q).StandardOutputContent) = [a, b, c])
    (hfl : pyFloat (pyReplacePct a) = none) :
    checkStorageLoop poll (fuel + 1) q sl = ⟨.exn "ValueError", q + 1, sl⟩ := by
  have h1 : ¬((poll q).Status = "InProgress" ∨ (poll q).Status = "Pending") := by
    rw [hst]
    rintro (h | h) <;> exact absurd h (by decide)
  simp only [checkStorageLoop]
  rw [if_neg h1, if_pos hst, if_pos hne, hsp]
  simp [hfl]

/-- Claim C10: if the command reports `Success` and its stdout has
exactly three whitespace-separated tokens whose first token does not
parse as a number after stripping `%`, then the `float()` conversion
raises inside the `try` body (`exn` outcome) and `check_storage`
catches it and returns `None` instead of propagating. -/
theorem c10_parse_exception_caught (poll : ℕ → Invocation) (a b c : String)
    (hst : (poll 0).Status = "Success")
    (hne : pyStrip (poll 0).StandardOutputContent ≠ "")
    (hsp : pySplit (pyStrip (poll 0).StandardOutputContent) = [a, b, c])
    (hfl : pyFloat (pyReplacePct a) = none) :
    (checkStorageRun poll).outcome = .exn "ValueError" ∧
    check_storage (.ok ()) poll = none := by
  have hrun : checkStorageRun poll = ⟨.exn "ValueError", 1, [2]⟩ :=
    checkStorageLoop_success_exn poll a b c 9 0 [2] hst hne hsp hfl
  exact ⟨by rw [hrun], by simp [check_storage, hrun]⟩

/-- Witness for C10: `Success` with stdout `"abc% 45G 50G"`. -/
theorem c10_parse_exception_caught_witness :
    (checkStorageRun pollBadToken).outcome = .exn "ValueError" ∧
    check_storage (.ok ()) pollBadToken = none :=
  c10_parse_exception_caught pollBadToken "abc%" "45G" "50G" rfl (by decide)
    (by decide) (by decide)

/-- Claim C7: `check_ec2_cpu` issues exactly one backend query per call
(no retry), returns `None` when the backend raises (after logging), and
returns `None` when the backend returns zero result sets or zero
datapoints. -/
theorem c7_metric_probe_single_query
    (backend : ℕ → Except String (List MetricDataResult)) :
    (check_ec2_cpu backend).queries = 1 ∧
    (∀ e, backend 0 = .error e → (check_ec2_cpu backend).result = none) ∧
    (backend 0 = .ok [] → (check_ec2_cpu backend).result = none) ∧
    (∀ r rest, backend 0 = .ok (r :: rest) → r.Values = [] →
      (check_ec2_cpu backend).result = none) := by
  refine ⟨?_, ?_, ?_, ?_⟩
  · unfold check_ec2_cpu
    rcases backend 0 with e | rs
    · rfl
    · rcases rs with _ | ⟨r, rest⟩
      · rfl
      · obtain ⟨vals⟩ := r
        rcases vals with _ | ⟨v, vs⟩ <;> rfl
  · intro e he; simp [check_ec2_cpu, he]
  · intro h; simp [check_ec2_cpu, h]
  · intro r rest h hv; simp [check_ec2_cpu, h, hv]

/-- Witness for C7: an always-raising backend. -/
theorem c7_metric_probe_single_query_witness :
    (check_ec2_cpu cpuErrBackend).queries = 1 ∧
    (check_ec2_cpu cpuErrBackend).result = none :=
  ⟨(c7_metric_probe_single_query cpuErrBackend).1,
   (c7_metric_probe_single_query cpuErrBackend).2.1 "Throttling" rfl⟩

/-- Claim C8: on a non-empty datapoint series `check_ec2_cpu` returns
the maximum element of the series (the fold of `max`, a member of the
series and an upper bound of it), not the arithmetic mean — witnessed by
the series `[0, 100]`, whose maximum `100` differs from its mean `50`. -/
theorem c8_max_of_averages :
    (∀ (backend : ℕ → Except String (List MetricDataResult)) (v : ℚ)
        (vs : List ℚ) (rest : List MetricDataResult),
      backend 0 = .ok (⟨v :: vs⟩ :: rest) →
        (check_ec2_cpu backend).result = some (vs.foldl max v) ∧
        vs.foldl max v ∈ v :: vs ∧
        ∀ x ∈ v :: vs, x ≤ vs.foldl max v) ∧
    (check_ec2_cpu cpuSeriesBackend).result = some 100 ∧
    seriesMean [0, 100] = 50 ∧ (100 : ℚ) ≠ 50 := by
  refine ⟨fun backend v vs rest hb => ?_, by decide,
    by norm_num [seriesMean], by decide⟩
  exact ⟨by simp [check_ec2_cpu, hb], foldl_max_mem vs v,
    fun x hx => le_foldl_max_of_mem vs v x hx⟩

/-- Witness for C8 at the series `[0, 100]`. -/
theorem c8_max_of_averages_witness :
    (check_ec2_cpu cpuSeriesBackend).result = some ([(100 : ℚ)].foldl max 0) :=
  (c8_max_of_averages.1 cpuSeriesBackend 0 [100] [] rfl).1

lemma checkStorageLoop_success_parse (poll : ℕ → Invocation)
    (a b c : String) (p : ℚ) (fuel q : ℕ) (sl : List ℕ)
    (hst : (poll q).Status = "Success")
    (hne : pyStrip (poll q).StandardOutputContent ≠ "")
    (hsp : pySplit (pyStrip (poll q).StandardOutputContent) = [a, b, c])
    (hfl : pyFloat (pyReplacePct a) = some p) :
    checkStorageLoop poll (fuel + 1) q sl = ⟨.ret (some (p, b, c)), q + 1, sl⟩ := by
  have h1 : ¬((poll q).Status = "InProgress" ∨ (poll q).Status = "Pending") := by
    rw [hst]
    rintro (h | h) <;> exact absurd h (by decide)
  simp only [checkStorageLoop]
  rw [if_neg h1, if_pos hst, if_pos hne, hsp]
  simp [hfl]

/-- Claim C5: a CPU value exactly at the 65 threshold and a storage
percentage exactly at the 84 ceiling are both classified OK — the
comparisons are strict `>`, so the instance produces no issue at all. -/
theorem c5_threshold_strict (w : World) (inst_type storage_path inst u t : String)
    (hcpu : (check_ec2_cpu (w.cpuBackend inst)).result = some 65)
    (hsto : storageOf w inst storage_path = some (84, u, t)) :
    checkOneInstance w inst_type storage_path inst = [] := by
  simp [checkOneInstance, hcpu, hsto]

/-- Witness for C5: the world whose probes answer exactly 65 and 84 %. -/
theorem c5_threshold_strict_witness :
    checkOneInstance thresholdWorld "EC2 Main Mongo" "/data" "i-0fd0bddfa1f458b4b" = [] := by
  have hfl : pyFloat (pyReplacePct "84%") = some 84 := by
    rw [show pyFloat (pyReplacePct "84%") =
      some (((1 : ℤ) : ℚ) * ((84 : ℕ) : ℚ)) from rfl]
    norm_num
  have hrun : checkStorageRun (fun _ => (⟨"Success", "84% 45G 50G"⟩ : Invocation)) =
      ⟨.ret (some (84, "45G", "50G")), 1, [2]⟩ :=
    checkStorageLoop_success_parse _ "84%" "45G" "50G" 84 9 0 [2] rfl (by decide)
      (by decide) hfl
  have hsto : storageOf thresholdWorld "i-0fd0bddfa1f458b4b" "/data" =
      some (84, "45G", "50G") := by
    simp only [storageOf, check_storage, thresholdWorld, healthyWorld]
    rw [hrun]
  exact c5_threshold_strict thresholdWorld "EC2 Main Mongo" "/data"
    "i-0fd0bddfa1f458b4b" "45G" "50G" rfl hsto

/-- C6 counterexample: at HTTP status 500 the record the source appends
is `Metric = "Response"`, `Status = "Invalid data"` — not the claimed
`Metric = "HTTP"`, `Status = "Error 500"`. -/
theorem c6_http500_counterexample :
    check_fota_time_api (.ok ⟨500, "Internal Server Error"⟩) =
      [⟨"FOTA API", "fota.kazam.in/time", "Response", "Invalid data"⟩] ∧
    ("Response" : String) ≠ "HTTP" ∧
    ("Invalid data" : String) ≠ "Error 500" := by decide

/-- Claim C6 (amended): when the external-API probe receives an HTTP
response with status 500, the appended issue record is exactly
`{Type: "FOTA API", Name: "fota.kazam.in/time", Metric: "Response",
Status: "Invalid data"}`. -/
theorem c6_http500_amended (r : HttpResponse) (h : r.status_code = 500) :
    check_fota_time_api (.ok r) =
      [⟨"FOTA API", "fota.kazam.in/time", "Response", "Invalid data"⟩] := by
  simp [check_fota_time_api, h]

/-- Witness for the amended C6 at a concrete 500 response. -/
theorem c6_http500_amended_witness :
    check_fota_time_api (.ok ⟨500, "Internal Server Error"⟩) =
      [⟨"FOTA API", "fota.kazam.in/time", "Response", "Invalid data"⟩] :=
  c6_http500_amended ⟨500, "Internal Server Error"⟩ rfl

/-- Claim C9: the summary filter that excludes type `"MQTT Node"`
contains no issue of that type, contains every issue of every other
type, and preserves the original append order (it is a sublist). -/
theorem c9_snapshot_filter (issues : List Issue) :
    (∀ i ∈ filtered_issues issues, i.«Type» ≠ "MQTT Node") ∧
    (∀ i ∈ issues, i.«Type» ≠ "MQTT Node" → i ∈ filtered_issues issues) ∧
    List.Sublist (filtered_issues issues) issues := by
  refine ⟨fun i hi => ?_, fun i hi hne => ?_, List.filter_sublist issues⟩
  · have := (List.mem_filter.1 hi).2
    simpa [bne_iff_ne] using this
  · exact List.mem_filter.2 ⟨hi, by simpa [bne_iff_ne] using hne⟩

/-- Witness for C9 on a concrete mixed issue list. -/
theorem c9_snapshot_filter_witness :
    (⟨"EC2 Logger", "logger-1", "CPU", "No data"⟩ : Issue) ∈
      filtered_issues sampleIssues :=
  (c9_snapshot_filter sampleIssues).2.1
    ⟨"EC2 Logger", "logger-1", "CPU", "No data"⟩ (by decide) (by decide)

/-- C4 counterexample: the MQTT monitor appends an issue record for a
scraped node without any health evaluation at all — no probe result was
classified DEGRADED or MISSING, yet a record exists. -/
theorem c4_mqtt_unconditional_counterexample :
    monitor_mqtt_nodes (.ok [["node1", "c1", "c2", "c3", "c4", "512MB", "0.05"]]) =
      [⟨"MQTT Node", "node1", "Memory/CPU", "Memory: 512MB, CPU: 0.05"⟩] := by
  decide

/-- Claim C4 (amended): outside the MQTT-node monitor, issues arise only
from non-OK evaluations — a Beanstalk issue records a non-Green health,
an EC2 issue records a missing or above-threshold CPU or storage
reading, a FOTA issue records a failed call or an invalid response; the
MQTT-node monitor instead appends an informational record for every
scraped node of at least 7 columns, unconditionally. -/
theorem c4_issue_iff_nonok_amended :
    (∀ (envs : List EnvInfo) (i : Issue), i ∈ monitorBeanstalkIssues envs →
      ∃ env, env ∈ envs ∧ env.Health ≠ "Green" ∧
        i.Name = env.EnvironmentName ∧ i.Status = env.Health) ∧
    (∀ (w : World) (insts : List String) (ty path : String) (i : Issue),
      i ∈ check_instances w insts ty path →
      ∃ inst, inst ∈ insts ∧
        ((i.Metric = "CPU" ∧
           ((check_ec2_cpu (w.cpuBackend inst)).result = none ∨
            ∃ c, (check_ec2_cpu (w.cpuBackend inst)).result = some c ∧ c > 65)) ∨
         (i.Metric = "Storage" ∧
           (storageOf w inst path = none ∨
            ∃ p u t, storageOf w inst path = some (p, u, t) ∧ p > 84)))) ∧
    (∀ (resp : Except String HttpResponse) (i : Issue),
      i ∈ check_fota_time_api resp →
      (∃ e, resp = .error e) ∨
      ∃ r, resp = .ok r ∧
        ((r.status_code == 200) && pyIsDigit (pyStrip r.text)) = false) ∧
    (∀ (rows : List (List String)) (cols : List String),
      cols ∈ rows → 7 ≤ cols.length →
      (⟨"MQTT Node", cols.getD 0 "", "Memory/CPU",
        "Memory: " ++ cols.getD 5 "" ++ ", CPU: " ++ cols.getD 6 ""⟩ : Issue) ∈
        monitor_mqtt_nodes (.ok rows)) := by
  refine ⟨?_, ?_, ?_, ?_⟩
  · intro envs i hi
    rcases List.mem_filterMap.1 hi with ⟨env, henv, hf⟩
    by_cases h1 : env.EnvironmentName = "kazam-app-backend-env" ∨
        env.EnvironmentName = "Kazam-platform-replica-env"
    · rw [if_pos h1] at hf
      exact absurd hf (by simp)
    · rw [if_neg h1] at hf
      by_cases h2 : env.Health = "Green"
      · rw [if_pos h2] at hf
        exact absurd hf (by simp)
      · rw [if_neg h2] at hf
        cases Option.some.inj hf
        exact ⟨env, henv, h2, rfl, rfl⟩
  · intro w insts ty path i hi
    rcases List.mem_flatMap.1 hi with ⟨inst, hinst, hmem⟩
    refine ⟨inst, hinst, ?_⟩
    simp only [checkOneInstance] at hmem
    rcases List.mem_append.1 hmem with hc | hs
    · left
      rcases hres : (check_ec2_cpu (w.cpuBackend inst)).result with _ | c
      · rw [hres] at hc
        dsimp only at hc
        simp only [List.mem_singleton] at hc
        subst hc
        exact ⟨rfl, Or.inl rfl⟩
      · rw [hres] at hc
        dsimp only at hc
        by_cases h65 : c > 65
        · rw [if_pos h65] at hc
          simp only [List.mem_singleton] at hc
          subst hc
          exact ⟨rfl, Or.inr ⟨c, rfl, h65⟩⟩
        · rw [if_neg h65] at hc
          exact absurd hc (by simp)
    · right
      rcases hres : storageOf w inst path with _ | ⟨p, u, t⟩
      · rw [hres] at hs
        dsimp only at hs
        simp only [List.mem_singleton] at hs
        subst hs
        exact ⟨rfl, Or.inl rfl⟩
      · rw [hres] at hs
        dsimp only at hs
        by_cases h84 : p > 84
        · rw [if_pos h84] at hs
          simp only [List.mem_singleton] at hs
          subst hs
          exact ⟨rfl, Or.inr ⟨p, u, t, rfl, h84⟩⟩
        · rw [if_neg h84] at hs
          exact absurd hs (by simp)
  · intro resp i hi
    rcases resp with e | r
    · exact Or.inl ⟨e, rfl⟩
    · refine Or.inr ⟨r, rfl, ?_⟩
      by_cases hcond : ((r.status_code == 200) && pyIsDigit (pyStrip r.text)) = true
      · simp only [check_fota_time_api, hcond, if_true] at hi
        exact absurd hi (by simp)
      · exact Bool.not_eq_true _ ▸ hcond
  · intro rows cols hmem hlen
    simp only [monitor_mqtt_nodes]
    refine List.mem_map.2 ⟨(cols.getD 0 "", cols.getD 5 "", cols.getD 6 ""), ?_, rfl⟩
    exact List.mem_filterMap.2 ⟨cols, hmem, by rw [if_pos hlen]⟩

/-- Witness for the amended C4: the unconditional MQTT record on a
concrete healthy-looking row. -/
theorem c4_issue_iff_nonok_amended_witness :
    (⟨"MQTT Node",
      (["node1", "c1", "c2", "c3", "c4", "512MB", "0.05"] : List String).getD 0 "",
      "Memory/CPU",
      "Memory: " ++
        (["node1", "c1", "c2", "c3", "c4", "512MB", "0.05"] : List String).getD 5 "" ++
        ", CPU: " ++
        (["node1", "c1", "c2", "c3", "c4", "512MB", "0.05"] : List String).getD 6 ""⟩ :
      Issue) ∈
      monitor_mqtt_nodes (.ok [["node1", "c1", "c2", "c3", "c4", "512MB", "0.05"]]) :=
  c4_issue_iff_nonok_amended.2.2.2
    [["node1", "c1", "c2", "c3", "c4", "512MB", "0.05"]]
    ["node1", "c1", "c2", "c3", "c4", "512MB", "0.05"] (by decide) (by decide)

/-- C1 counterexample: when the environment-listing backend raises, the
exception crosses `monitor_beanstalk`, no later SectionMonitor runs, no
summary is rendered and no email is delivered — the run aborts. -/
theorem c1_beanstalk_abort_counterexample :
    (mainRun badBeanstalkWorld).ranEc2 = false ∧
    (mainRun badBeanstalkWorld).ranFota = false ∧
    (mainRun badBeanstalkWorld).ranMqtt = false ∧
    (mainRun badBeanstalkWorld).summary = none ∧
    (mainRun badBeanstalkWorld).emailSent = false ∧
    (mainRun badBeanstalkWorld).uncaught = some "ConnectionError" :=
  ⟨rfl, rfl, rfl, rfl, rfl, rfl⟩

/-- Claim C1 (amended): failures inside `check_ec2_cpu`,
`check_storage`, `check_fota_time_api` and `monitor_mqtt_nodes` are all
caught at the point of occurrence and converted to normalized results,
so whenever the environment listing itself succeeds — whatever every
other backend does — all SectionMonitors run, the summary is rendered
and the report is delivered; but an exception from the
environment-listing backend inside `monitor_beanstalk` is NOT caught:
it aborts the run before any later monitor, rendering or delivery. -/
theorem c1_fault_isolation_amended (w : World) :
    (∀ envs, w.ebDescribe = .ok envs →
      (mainRun w).ranEc2 = true ∧ (mainRun w).ranFota = true ∧
      (mainRun w).ranMqtt = true ∧ (mainRun w).emailSent = true ∧
      (mainRun w).uncaught = none ∧
      (mainRun w).summary = some (filtered_issues (mainRun w).issues)) ∧
    (∀ e, w.ebDescribe = .error e →
      (mainRun w).ranEc2 = false ∧ (mainRun w).emailSent = false ∧
      (mainRun w).uncaught = some e) := by
  constructor
  · intro envs h
    simp [mainRun, monitor_beanstalk, h]
  · intro e h
    simp [mainRun, monitor_beanstalk, h]

/-- Witness for the amended C1: a working listing delivers the report;
a raising listing does not. -/
theorem c1_fault_isolation_amended_witness :
    (mainRun healthyWorld).emailSent = true ∧
    (mainRun badBeanstalkWorld).emailSent = false :=
  ⟨((c1_fault_isolation_amended healthyWorld).1
      [⟨"prod-env", "Ready", "Green"⟩] rfl).2.2.2.1,
   ((c1_fault_isolation_amended badBeanstalkWorld).2 "ConnectionError" rfl).2.1⟩
